import Mathlib

/-!
Shallow embedding of the `grok_meetu` frontend (src/frontend/src/App.js and
src/frontend/src/pages/HelloWorld/index.js).

The application state and the submit handler are translated directly from the
React component `App`: the handler issues a GET for existing recommendations,
falls back to a POST on a 404, records every POST request it issues, and
manages the `loading` / `error` / `recommendations` state exactly as the
source does.  The result renderer is translated from the JSX at the bottom of
`App`.  Network outcomes are modelled as an environment supplying the axios
results of the (at most two) requests of one submission.
-/

namespace GrokMeetu

/-- A recommendation record as received from the backend
(`{chatroom_id, predicted_score}`).  The JavaScript number is modelled as a
rational. -/
structure Recommendation where
  chatroom_id : String
  predicted_score : Rat
  deriving DecidableEq, Repr

/-- The threshold parameters (`App.js` lines 10-14).  `credit_level` is the
string value of the select element (`"none" | "partial" | "full"`). -/
structure Thresholds where
  motivation : Rat
  pressure : Rat
  credit_level : String
  deriving DecidableEq, Repr

/-- The initial thresholds state (`useState` initialiser, `App.js` 10-14). -/
def initialThresholds : Thresholds :=
  { motivation := mkRat 1 10, pressure := mkRat 1 2, credit_level := "partial" }

/-- Body of the POST create request: `{ user_id, filters: { top_k }, thresholds }`
(`App.js` 39-45). -/
structure Filters where
  top_k : Nat
  deriving DecidableEq, Repr

structure CreateRequest where
  user_id : String
  filters : Filters
  thresholds : Thresholds
  deriving DecidableEq, Repr

/-- The body of an error response, as far as the handler inspects it:
`err.response.data.detail` may be present or absent. -/
structure RespData where
  detail : Option String
  deriving DecidableEq, Repr

/-- An HTTP response attached to an axios error: a status and an optional
body. -/
structure HttpResponse where
  status : Nat
  data : Option RespData
  deriving DecidableEq, Repr

/-- An axios failure: `err.response` is absent for network-level errors,
`err.message` is always present. -/
structure HttpFailure where
  response : Option HttpResponse
  message : String
  deriving DecidableEq, Repr

/-- The result of one axios request: success carries `response.data.recommendations`
(absent when the body omits the field), failure carries the error object. -/
inductive AxiosResult where
  | ok (recommendations : Option (List Recommendation))
  | fail (f : HttpFailure)
  deriving DecidableEq, Repr

/-- The environment of one submission: the outcome the network would give to
the GET read request and to the POST create request (the latter is consulted
only if the handler actually issues the POST). -/
structure SubmitEnv where
  getResult : AxiosResult
  postResult : AxiosResult
  deriving DecidableEq, Repr

/-- The component-local UI state mutated by the submit handler
(`useState` hooks, `App.js` 6-14; `userId` and `thresholds` are passed to the
handler as arguments). -/
structure AppState where
  recommendations : List Recommendation
  loading : Bool
  error : Option String
  deriving DecidableEq, Repr

/-- What `console.error("Request failed:", err.response?.data || err.message)`
logs: the response body when present, the error message otherwise. -/
inductive LogPayload where
  | responseData (d : RespData)
  | message (m : String)
  deriving DecidableEq, Repr

/-- `err.response?.data?.detail` (`App.js` 49). -/
def failureDetail (f : HttpFailure) : Option String :=
  (f.response.bind (·.data)).bind (·.detail)

/-- The error string built in the outer catch (`App.js` 49-51):
"Error: " ++ detail when the detail field is present, the fixed fallback
otherwise. -/
def errorMessage (f : HttpFailure) : String :=
  match failureDetail f with
  | some d => "Error: " ++ d
  | none => "Failed to get recommendations"

/-- The payload of the `console.error` call (`App.js` 53):
`err.response?.data || err.message`. -/
def logPayload (f : HttpFailure) : LogPayload :=
  match f.response.bind (·.data) with
  | some d => .responseData d
  | none => .message f.message

/-- The observable outcome of one run of the submit handler: the final UI
state, the list of POST create requests issued (in order), whether
`setRecommendations` ran, and the `console.error` log. -/
structure SubmitOutcome where
  state : AppState
  posts : List CreateRequest
  recsSet : Bool
  log : List LogPayload
  deriving DecidableEq, Repr

/-- `setLoading(true); setError(null)` — the first two statements of the
handler (`App.js` 18-19). -/
def submitStart (s : AppState) : AppState :=
  { s with loading := true, error := none }

/-- The outer `try`/`catch` body of the handler (`App.js` 21-53), acting on
the state after `submitStart`:
* inner try: GET `/recommendations/{userId}`; on success set
  `recommendations` to `response.data.recommendations || []` and return;
* inner catch: rethrow unless `err.response?.status === 404`;
* then POST `/recommendations` with
  `{ user_id, filters: { top_k: 5 }, thresholds }` and on success set
  `recommendations` to `response.data.recommendations || []`;
* outer catch: `setError(errorMessage)` and log. -/
def submitTry (userId : String) (thresholds : Thresholds) (s : AppState)
    (env : SubmitEnv) : SubmitOutcome :=
  match env.getResult with
  | .ok recs =>
      { state := { s with recommendations := recs.getD [] },
        posts := [], recsSet := true, log := [] }
  | .fail f =>
      if f.response.map (·.status) ≠ some 404 then
        { state := { s with error := some (errorMessage f) },
          posts := [], recsSet := false, log := [logPayload f] }
      else
        let body : CreateRequest :=
          { user_id := userId, filters := { top_k := 5 }, thresholds := thresholds }
        match env.postResult with
        | .ok recs =>
            { state := { s with recommendations := recs.getD [] },
              posts := [body], recsSet := true, log := [] }
        | .fail f2 =>
            { state := { s with error := some (errorMessage f2) },
              posts := [body], recsSet := false, log := [logPayload f2] }

/-- The whole submit handler (`App.js` 16-57): `submitStart`, then the
`try`/`catch` body, then the `finally` clause `setLoading(false)`. -/
def handleSubmit (userId : String) (thresholds : Thresholds) (s : AppState)
    (env : SubmitEnv) : SubmitOutcome :=
  let o := submitTry userId thresholds (submitStart s) env
  { o with state := { o.state with loading := false } }

/-- One step of the UI's transition system: the form's `onSubmit` is
`handleSubmit`, which contains no guard of any kind, so a submit event from
any state runs it. -/
inductive SubmitStep : AppState → AppState → Prop where
  | step (u : String) (th : Thresholds) (env : SubmitEnv) (s : AppState) :
      SubmitStep s (handleSubmit u th s env).state

/-- The submit button's `disabled` attribute (`App.js` 128). -/
def submitButtonDisabled (s : AppState) : Bool := s.loading

/-! ### The result renderer (`App.js` 133-149) -/

/-- Zero-padded two-digit rendering of a number below 100. -/
def twoDigits (k : Nat) : String :=
  (if k < 10 then "0" else "") ++ toString k

/-- `Number.prototype.toFixed(2)`: the ECMAScript algorithm strips the sign,
chooses the natural `n` minimising `|n / 100 - |q||` with ties to the larger
`n` (that is `n = ⌊100|q| + 1/2⌋ = ⌊(200a + d) / 2d⌋` for `|q| = a / d`),
prints `n / 100` with exactly two fractional digits and prepends the sign. -/
def toFixed2 (q : Rat) : String :=
  let a : Nat := q.num.natAbs
  let d : Nat := q.den
  let n : Nat := (200 * a + d) / (2 * d)
  let s := toString (n / 100) ++ "." ++ twoDigits (n % 100)
  if q.num < 0 then "-" ++ s else s

/-- One rendered recommendation card (`App.js` 140-145): the React `key`, the
`<h3>` heading and the score line. -/
structure Card where
  key : String
  heading : String
  scoreText : String
  deriving DecidableEq, Repr

/-- The card rendered for one recommendation entry (`App.js` 140-145). -/
def renderCard (r : Recommendation) : Card :=
  { key := r.chatroom_id
    heading := "Chatroom " ++ r.chatroom_id
    scoreText := "Score: " ++ toFixed2 r.predicted_score }

/-- `{recommendations.length > 0 && ...}` (`App.js` 135-149): the
recommendations section is rendered only for a non-empty list, one card per
entry. -/
def renderRecommendations (recs : List Recommendation) : Option (List Card) :=
  if recs.length > 0 then some (recs.map renderCard) else none

/-- `{error && <div className="error">{error}</div>}` (`App.js` 133). -/
def renderError (e : Option String) : Option String := e

/-! ### The `HelloWorld` component (`pages/HelloWorld/index.js`) -/

/-- The observable outcome of one run of the `HW` submit handler: `thrown` is
an exception propagated out of the handler (never, as proved below) and `log`
is the `console.error` log. -/
structure HWOutcome where
  thrown : Option String
  log : List LogPayload
  deriving DecidableEq, Repr

/-- The message of the `TypeError` raised by `xx = response.data`: `xx` is a
`const` binding and ES modules run in strict mode, so the assignment throws. -/
def constAssignmentError : String := "Assignment to constant variable."

/-- The `HW` submit handler (`HelloWorld/index.js` 7-22): GET `/helloworld`;
on success the assignment `xx = response.data` to the `const` binding throws a
`TypeError`, which the handler's own `catch` receives (a `TypeError` has no
`response`, so `err.response?.data || err.message` logs the message); on GET
failure the `catch` logs the axios error.  In both cases the `catch` swallows
the exception, so nothing propagates. -/
def hwHandleSubmit (env : AxiosResult) : HWOutcome :=
  match env with
  | .ok _ =>
      { thrown := none, log := [.message constAssignmentError] }
  | .fail f =>
      { thrown := none, log := [logPayload f] }

/-- The `HW` component's render (`HelloWorld/index.js` 24-28): fixed JSX that
mentions no state and no fetched value; the argument is the value of the only
binding in scope, `xx`, which the JSX does not use. -/
def hwRender (xx : String) : String := "Hello World!!!"

/-! ### Concrete fixtures used by witnesses and counterexamples -/

/-- A 404 from the read endpoint, no body. -/
def fail404ex : HttpFailure :=
  { response := some { status := 404, data := none }
    message := "Request failed with status code 404" }

/-- A 500 whose body carries `detail: "boom"`. -/
def fail500ex : HttpFailure :=
  { response := some { status := 500, data := some { detail := some "boom" } }
    message := "Request failed with status code 500" }

/-- The recommendation of the spec's worked scenario. -/
def rec1 : Recommendation := { chatroom_id := "c1", predicted_score := mkRat 873 1000 }

/-- The state at component mount (`useState` initialisers). -/
def emptyState : AppState := { recommendations := [], loading := false, error := none }

/-- A pre-submission state that already displays one card. -/
def stateWithCard : AppState :=
  { recommendations := [{ chatroom_id := "c0", predicted_score := mkRat 1 2 }]
    loading := false, error := none }

/-- Read 404, create succeeds with one recommendation. -/
def envRead404Create : SubmitEnv :=
  { getResult := .fail fail404ex, postResult := .ok (some [rec1]) }

/-- Read succeeds with one recommendation. -/
def envReadOk : SubmitEnv :=
  { getResult := .ok (some [rec1]), postResult := .ok none }

/-- Read fails with the 500 above. -/
def envRead500 : SubmitEnv :=
  { getResult := .fail fail500ex, postResult := .ok none }

/-- A trivial environment (read succeeds with an empty body). -/
def envOk : SubmitEnv := { getResult := .ok none, postResult := .ok none }

/-! ## Characterisation of the handler, one lemma per execution path -/

/-- Read succeeds: recommendations replaced, no POST, no error, no log. -/
theorem handleSubmit_ok (u : String) (th : Thresholds) (s : AppState)
    (recs : Option (List Recommendation)) (p : AxiosResult) :
    handleSubmit u th s { getResult := .ok recs, postResult := p } =
      { state := { recommendations := recs.getD [], loading := false, error := none }
        posts := [], recsSet := true, log := [] } := rfl

/-- Read fails other than 404: no POST, error set, state kept, failure
logged. -/
theorem handleSubmit_non404 (u : String) (th : Thresholds) (s : AppState)
    (f : HttpFailure) (p : AxiosResult)
    (hst : f.response.map (·.status) ≠ some 404) :
    handleSubmit u th s { getResult := .fail f, postResult := p } =
      { state := { recommendations := s.recommendations, loading := false
                   error := some (errorMessage f) }
        posts := [], recsSet := false, log := [logPayload f] } := by
  unfold handleSubmit submitTry
  dsimp only
  rw [if_pos hst]
  rfl

/-- Read 404, create succeeds: one POST with the handler's body,
recommendations replaced. -/
theorem handleSubmit_404_ok (u : String) (th : Thresholds) (s : AppState)
    (f : HttpFailure) (recs : Option (List Recommendation))
    (hst : f.response.map (·.status) = some 404) :
    handleSubmit u th s { getResult := .fail f, postResult := .ok recs } =
      { state := { recommendations := recs.getD [], loading := false, error := none }
        posts := [{ user_id := u, filters := { top_k := 5 }, thresholds := th }]
        recsSet := true, log := [] } := by
  unfold handleSubmit submitTry
  dsimp only
  rw [if_neg (by simp [hst])]
  rfl

/-- Read 404, create fails: one POST with the handler's body, error set,
state kept, failure logged. -/
theorem handleSubmit_404_fail (u : String) (th : Thresholds) (s : AppState)
    (f f2 : HttpFailure)
    (hst : f.response.map (·.status) = some 404) :
    handleSubmit u th s { getResult := .fail f, postResult := .fail f2 } =
      { state := { recommendations := s.recommendations, loading := false
                   error := some (errorMessage f2) }
        posts := [{ user_id := u, filters := { top_k := 5 }, thresholds := th }]
        recsSet := false, log := [logPayload f2] } := by
  unfold handleSubmit submitTry
  dsimp only
  rw [if_neg (by simp [hst])]
  rfl

/-! ## Claims -/

/-- C1: when the read request fails with HTTP 404, the handler issues the
create POST exactly once, with body exactly
`{ user_id: userId, filters: { top_k: 5 }, thresholds }` built from the
current threshold values, and on create success the recommendations state is
replaced by the create response's list (empty when the field is absent). -/
theorem C1_read404_creates_once (u : String) (th : Thresholds) (s : AppState)
    (env : SubmitEnv) (f : HttpFailure)
    (hget : env.getResult = .fail f)
    (h404 : f.response.map (·.status) = some 404) :
    (handleSubmit u th s env).posts
      = [{ user_id := u, filters := { top_k := 5 }, thresholds := th }]
  ∧ (∀ recs, env.postResult = .ok recs →
      (handleSubmit u th s env).state.recommendations = recs.getD []) := by
  obtain ⟨g, p⟩ := env
  have hg : g = .fail f := hget
  subst hg
  cases p with
  | ok recs0 =>
      rw [handleSubmit_404_ok u th s f recs0 h404]
      refine ⟨rfl, ?_⟩
      intro recs hr
      have hr2 : AxiosResult.ok recs0 = AxiosResult.ok recs := hr
      cases hr2
      rfl
  | fail f2 =>
      rw [handleSubmit_404_fail u th s f f2 h404]
      refine ⟨rfl, ?_⟩
      intro recs hr
      exact AxiosResult.noConfusion (show AxiosResult.fail f2 = .ok recs from hr)

/-- Witness for C1 at the spec's worked scenario. -/
theorem C1_witness :
    (handleSubmit "u1" initialThresholds emptyState envRead404Create).posts
      = [{ user_id := "u1", filters := { top_k := 5 }, thresholds := initialThresholds }]
  ∧ (handleSubmit "u1" initialThresholds emptyState envRead404Create).state.recommendations
      = [rec1] := by
  have h := C1_read404_creates_once "u1" initialThresholds emptyState envRead404Create
    fail404ex rfl rfl
  exact ⟨h.1, h.2 (some [rec1]) rfl⟩

/-- C2: when the read request succeeds, the create POST is never issued and
the recommendations state is replaced by exactly the read response's list
(empty when the field is absent). -/
theorem C2_readOk_no_create (u : String) (th : Thresholds) (s : AppState)
    (env : SubmitEnv) (recs : Option (List Recommendation))
    (hget : env.getResult = .ok recs) :
    (handleSubmit u th s env).posts = []
  ∧ (handleSubmit u th s env).state.recommendations = recs.getD [] := by
  obtain ⟨g, p⟩ := env
  have hg : g = .ok recs := hget
  subst hg
  rw [handleSubmit_ok u th s recs p]
  exact ⟨rfl, rfl⟩

/-- Witness for C2 at a read returning one recommendation. -/
theorem C2_witness :
    (handleSubmit "u2" initialThresholds emptyState envReadOk).posts = []
  ∧ (handleSubmit "u2" initialThresholds emptyState envReadOk).state.recommendations
      = [rec1] :=
  C2_readOk_no_create "u2" initialThresholds emptyState envReadOk (some [rec1]) rfl

/-- C3: when the read request fails with any status other than 404 (or with
no response at all), no create POST is issued, the error state is set
non-null, and the recommendations state keeps its pre-submission value. -/
theorem C3_non404_stops (u : String) (th : Thresholds) (s : AppState)
    (env : SubmitEnv) (f : HttpFailure)
    (hget : env.getResult = .fail f)
    (hst : f.response.map (·.status) ≠ some 404) :
    (handleSubmit u th s env).posts = []
  ∧ (handleSubmit u th s env).state.error ≠ none
  ∧ (handleSubmit u th s env).state.recommendations = s.recommendations := by
  obtain ⟨g, p⟩ := env
  have hg : g = .fail f := hget
  subst hg
  rw [handleSubmit_non404 u th s f p hst]
  exact ⟨rfl, by simp, rfl⟩

/-- Witness for C3 at a 500 read failure over a state with one card. -/
theorem C3_witness :
    (handleSubmit "u3" initialThresholds stateWithCard envRead500).posts = []
  ∧ (handleSubmit "u3" initialThresholds stateWithCard envRead500).state.error ≠ none
  ∧ (handleSubmit "u3" initialThresholds stateWithCard envRead500).state.recommendations
      = stateWithCard.recommendations :=
  C3_non404_stops "u3" initialThresholds stateWithCard envRead500 fail500ex rfl (by decide)

/-- C4: every submission begins by setting `loading := true` and clearing
`error`, and whatever the outcome of the two network calls, `loading` is
false when the submission completes. -/
theorem C4_loading_lifecycle (u : String) (th : Thresholds) (s : AppState)
    (env : SubmitEnv) :
    (submitStart s).loading = true
  ∧ (submitStart s).error = none
  ∧ (handleSubmit u th s env).state.loading = false :=
  ⟨rfl, rfl, rfl⟩

/-- C5: the loading flag does not block re-submission at the handler level:
from any state with `loading = true` every submit step is still possible (the
form's `onSubmit` is `handleSubmit`, which contains no guard), and the
handler's behaviour is entirely independent of the loading flag. -/
theorem C5_no_submit_lock (s : AppState) (h : s.loading = true) :
    (∀ (u : String) (th : Thresholds) (env : SubmitEnv),
        SubmitStep s (handleSubmit u th s env).state)
  ∧ (∀ (u : String) (th : Thresholds) (env : SubmitEnv),
        handleSubmit u th s env = handleSubmit u th { s with loading := false } env) :=
  ⟨fun u th env => SubmitStep.step u th env s, fun _ _ _ => rfl⟩

/-- Witness for C5 at a loading state with no cards. -/
theorem C5_witness :
    SubmitStep { recommendations := [], loading := true, error := none }
      (handleSubmit "u1" initialThresholds
        { recommendations := [], loading := true, error := none } envOk).state
  ∧ handleSubmit "u1" initialThresholds
      { recommendations := [], loading := true, error := none } envOk
    = handleSubmit "u1" initialThresholds
      { recommendations := [], loading := false, error := none } envOk :=
  ⟨(C5_no_submit_lock _ rfl).1 "u1" initialThresholds envOk,
   (C5_no_submit_lock _ rfl).2 "u1" initialThresholds envOk⟩

/-- C6: every failure reaching the outer handler (read failure other than
404, or create failure after a 404 read) sets the error state to
"Error: " ++ detail when the failure body carries a detail field and to the
fixed fallback "Failed to get recommendations" otherwise, and logs the
diagnostic payload. -/
theorem C6_outer_error_message (u : String) (th : Thresholds) (s : AppState)
    (env : SubmitEnv) (f : HttpFailure) :
    (env.getResult = .fail f → f.response.map (·.status) ≠ some 404 →
        (handleSubmit u th s env).state.error = some (errorMessage f)
      ∧ (handleSubmit u th s env).log = [logPayload f])
  ∧ (∀ f1, env.getResult = .fail f1 → f1.response.map (·.status) = some 404 →
        env.postResult = .fail f →
        (handleSubmit u th s env).state.error = some (errorMessage f)
      ∧ (handleSubmit u th s env).log = [logPayload f])
  ∧ (∀ d, failureDetail f = some d → errorMessage f = "Error: " ++ d)
  ∧ (failureDetail f = none → errorMessage f = "Failed to get recommendations") := by
  obtain ⟨g, p⟩ := env
  refine ⟨?_, ?_, ?_, ?_⟩
  · intro hget hst
    have hg : g = .fail f := hget
    subst hg
    rw [handleSubmit_non404 u th s f p hst]
    exact ⟨rfl, rfl⟩
  · intro f1 hget h404 hpost
    have hg : g = .fail f1 := hget
    have hp : p = .fail f := hpost
    subst hg
    subst hp
    rw [handleSubmit_404_fail u th s f1 f h404]
    exact ⟨rfl, rfl⟩
  · intro d hd
    unfold errorMessage
    rw [hd]
  · intro hd
    unfold errorMessage
    rw [hd]

/-- Witness for C6 at a 500 read failure whose body carries detail "boom". -/
theorem C6_witness :
    (handleSubmit "u1" initialThresholds emptyState envRead500).state.error
      = some "Error: boom"
  ∧ (handleSubmit "u1" initialThresholds emptyState envRead500).log
      = [logPayload fail500ex] := by
  have h := (C6_outer_error_message "u1" initialThresholds emptyState envRead500
    fail500ex).1 rfl (by decide)
  have hd := (C6_outer_error_message "u1" initialThresholds emptyState envRead500
    fail500ex).2.2.1 "boom" rfl
  refine ⟨?_, h.2⟩
  rw [h.1, hd]
  rfl

/-- C7: the result renderer is a pure projection of state: a non-empty
recommendations list yields exactly one card per entry, keyed by the entry's
`chatroom_id` and showing the identifier and the score to two decimal places
(0.873 renders as "0.87"); the empty list yields no recommendations section
at all. -/
theorem C7_renderer_projection :
    (∀ recs : List Recommendation, recs ≠ [] →
        renderRecommendations recs = some (recs.map renderCard))
  ∧ renderRecommendations [] = none
  ∧ (∀ r : Recommendation,
        (renderCard r).key = r.chatroom_id
      ∧ (renderCard r).heading = "Chatroom " ++ r.chatroom_id
      ∧ (renderCard r).scoreText = "Score: " ++ toFixed2 r.predicted_score)
  ∧ toFixed2 (mkRat 873 1000) = "0.87" := by
  refine ⟨?_, rfl, fun r => ⟨rfl, rfl, rfl⟩, by decide⟩
  intro recs h
  unfold renderRecommendations
  rw [if_pos (List.length_pos.mpr h)]

/-- Witness for C7 at the spec's worked scenario card. -/
theorem C7_witness :
    renderRecommendations [rec1] = some [renderCard rec1]
  ∧ toFixed2 (mkRat 873 1000) = "0.87" :=
  ⟨C7_renderer_projection.1 [rec1] (by decide), C7_renderer_projection.2.2.2⟩

/-- C8 counterexample: a submission whose read request returns HTTP 500,
started from a state already displaying one card.  The error is shown and no
create call is made, but recommendation cards ARE still shown (the
pre-submission card survives), contradicting the claim's "no recommendation
cards are shown". -/
theorem C8_counterexample :
    envRead500.getResult = .fail fail500ex
  ∧ fail500ex.response.map (·.status) = some 500
  ∧ (handleSubmit "u1" initialThresholds stateWithCard envRead500).posts = []
  ∧ (handleSubmit "u1" initialThresholds stateWithCard envRead500).state.error ≠ none
  ∧ renderRecommendations
      (handleSubmit "u1" initialThresholds stateWithCard envRead500).state.recommendations
      ≠ none := by
  decide

/-- C8 (amended): when the read request returns HTTP 500, the UI shows the
detail-extracted or fallback error string, no create call is made, and the
recommendations state — hence the set of rendered cards — is exactly the
pre-submission one; in particular no cards are shown when the pre-submission
list was empty. -/
theorem C8_read500_error (u : String) (th : Thresholds) (s : AppState)
    (env : SubmitEnv) (f : HttpFailure)
    (hget : env.getResult = .fail f)
    (hst : f.response.map (·.status) = some 500) :
    (handleSubmit u th s env).posts = []
  ∧ (handleSubmit u th s env).state.error = some (errorMessage f)
  ∧ (handleSubmit u th s env).state.recommendations = s.recommendations
  ∧ (s.recommendations = [] →
      renderRecommendations (handleSubmit u th s env).state.recommendations = none) := by
  have hne : f.response.map (·.status) ≠ some 404 := by
    rw [hst]
    decide
  obtain ⟨g, p⟩ := env
  have hg : g = .fail f := hget
  subst hg
  rw [handleSubmit_non404 u th s f p hne]
  refine ⟨rfl, rfl, rfl, ?_⟩
  intro h
  show renderRecommendations s.recommendations = none
  rw [h]
  rfl

/-- Witness for C8 (amended) at a 500 read failure from the mount state. -/
theorem C8_witness :
    (handleSubmit "u1" initialThresholds emptyState envRead500).posts = []
  ∧ (handleSubmit "u1" initialThresholds emptyState envRead500).state.error
      = some (errorMessage fail500ex)
  ∧ (handleSubmit "u1" initialThresholds emptyState envRead500).state.recommendations = []
  ∧ renderRecommendations
      (handleSubmit "u1" initialThresholds emptyState envRead500).state.recommendations
      = none := by
  have h := C8_read500_error "u1" initialThresholds emptyState envRead500 fail500ex rfl rfl
  exact ⟨h.1, h.2.1, h.2.2.1, h.2.2.2 rfl⟩

/-- C9: at completion of any submission, an error and a fresh recommendations
list are mutually exclusive: a non-null error means `setRecommendations`
never ran and the list kept its pre-submission value, and a run of
`setRecommendations` means the error is null. -/
theorem C9_error_xor_fresh (u : String) (th : Thresholds) (s : AppState)
    (env : SubmitEnv) :
    ((handleSubmit u th s env).state.error ≠ none →
        (handleSubmit u th s env).state.recommendations = s.recommendations
      ∧ (handleSubmit u th s env).recsSet = false)
  ∧ ((handleSubmit u th s env).recsSet = true →
        (handleSubmit u th s env).state.error = none) := by
  obtain ⟨g, p⟩ := env
  cases g with
  | ok recs =>
      rw [handleSubmit_ok u th s recs p]
      exact ⟨fun h => absurd rfl h, fun _ => rfl⟩
  | fail f =>
      by_cases h404 : f.response.map (·.status) = some 404
      · cases p with
        | ok recs =>
            rw [handleSubmit_404_ok u th s f recs h404]
            exact ⟨fun h => absurd rfl h, fun _ => rfl⟩
        | fail f2 =>
            rw [handleSubmit_404_fail u th s f f2 h404]
            exact ⟨fun _ => ⟨rfl, rfl⟩, fun h => (Bool.false_ne_true h).elim⟩
      · rw [handleSubmit_non404 u th s f p h404]
        exact ⟨fun _ => ⟨rfl, rfl⟩, fun h => (Bool.false_ne_true h).elim⟩

/-- Witness for C9 at a failing submission over a state with one card. -/
theorem C9_witness :
    (handleSubmit "u9" initialThresholds stateWithCard envRead500).state.recommendations
      = stateWithCard.recommendations
  ∧ (handleSubmit "u9" initialThresholds stateWithCard envRead500).recsSet = false :=
  (C9_error_xor_fresh "u9" initialThresholds stateWithCard envRead500).1 (by decide)

/-- C10: the `HW` submit handler never propagates an exception: the
assignment to the `const` binding `xx` raises a `TypeError` inside the try
block which the handler's own catch swallows and merely logs, and the
component's rendered output is the constant heading, independent of the fetch
result. -/
theorem C10_hw_swallows (env : AxiosResult) (x : String) :
    (hwHandleSubmit env).thrown = none
  ∧ (hwHandleSubmit env).log ≠ []
  ∧ (∀ d, env = .ok d →
      (hwHandleSubmit env).log = [.message constAssignmentError])
  ∧ (∀ y, hwRender x = hwRender y)
  ∧ hwRender x = "Hello World!!!" := by
  cases env with
  | ok d0 =>
      exact ⟨rfl, List.cons_ne_nil _ _, fun d h => rfl, fun y => rfl, rfl⟩
  | fail f =>
      refine ⟨rfl, List.cons_ne_nil _ _, ?_, fun y => rfl, rfl⟩
      intro d h
      exact AxiosResult.noConfusion h

/-- Witness for C10 at a successful fetch. -/
theorem C10_witness :
    (hwHandleSubmit (.ok none)).thrown = none
  ∧ (hwHandleSubmit (.ok none)).log = [.message constAssignmentError] :=
  ⟨(C10_hw_swallows (.ok none) "").1,
   (C10_hw_swallows (.ok none) "").2.2.1 none rfl⟩

end GrokMeetu
